import Mathlib

/-!
Shallow embedding of `rainsensor.cpp` (JoachimSchurig/rainsensor).

The program is a single-threaded polling loop (`count_rain`) over an external
pulse counter, plus `getopt`-based option parsing in `main`.  We embed:

* the startup options struct `option_t` with its C++ default values;
* the per-tick delta computation with its overflow guard, on `unsigned long`
  arithmetic modelled as `Nat` with explicit reduction modulo `2 ^ 64`;
* the circular bucket vector (`buckets` / `inserter`) as a `List Nat` with an
  index cursor, advanced exactly as the iterator in the source;
* the rate computation `events_per_hour * sqcm * milliliter / 1000`
  (all operands of unsigned-long/int type, hence integer division);
* the output formatting (`std::setprecision(2) << std::fixed`) for the
  integral values the integer division produces;
* the per-tick sink dispatch (file open/truncate/write, console print) as a
  pure record of the externally visible effects, with the file-open success
  as an input, and `main`'s `getopt (argc, argv, "b:c:f:hi:p:s:")` loop.

The external `GPIO::Counter` is modelled as a read trace `raw : Nat → Nat`,
where `raw 0` is the read taken before the loop (the baseline init) and
`raw (t+1)` is the read of tick `t+1`.
-/

namespace Rainsensor

/-- `unsigned long` modulus: the counter and bucket arithmetic in the source
is on 64-bit unsigned integers. -/
def U64 : Nat := 2 ^ 64

/-- C unsigned subtraction `a - b` on `unsigned long` values (`a, b < U64`):
wraps modulo `2 ^ 64`. -/
def usub (a b : Nat) : Nat := (a + (U64 - b)) % U64

/-- The startup options struct of the source, C++ default initializers
included (`sqcm = 127` with the comment that the exact device value is
`127.455166`). -/
structure option_t where
  filename : String := ""
  print_to_console : Bool := false
  interval : Int := 5
  gpio_pin : Int := 0
  milliliter : Int := 5
  sqcm : Int := 127
deriving DecidableEq

/-- The loop state of `count_rain`: the bucket vector, the write iterator
(`inserter`, as an index), and the last raw counter read. -/
structure LoopState where
  buckets : List Nat
  inserter : Nat
  last_event_counter : Nat
deriving DecidableEq

/-- The per-tick delta computation of `count_rain`:
`if (new_event_counter < last_event_counter) last_event_counter = 0;`
followed by the unsigned subtraction
`events = new_event_counter - last_event_counter`. -/
def tickDelta (last_event_counter new_event_counter : Nat) : Nat :=
  usub new_event_counter (if new_event_counter < last_event_counter then 0 else last_event_counter)

/-- One iteration of the `while (true)` loop of `count_rain` up to and
including the bucket write: compute `events`, store it through `inserter`,
advance and wrap the iterator, and keep the new counter value. -/
def tickStep (s : LoopState) (new_event_counter : Nat) : LoopState :=
  { buckets := s.buckets.set s.inserter (tickDelta s.last_event_counter new_event_counter)
    inserter :=
      if s.inserter + 1 = (s.buckets.set s.inserter (tickDelta s.last_event_counter new_event_counter)).length
      then 0 else s.inserter + 1
    last_event_counter := new_event_counter }

/-- The state of `count_rain` just before entering the loop:
`buckets.resize(60 / options.interval)` (zero-filled), `inserter` at the
begin iterator, and `last_event_counter` initialized from the counter read
taken before the first sleep. -/
def initState (interval : Nat) (raw0 : Nat) : LoopState :=
  { buckets := List.replicate (60 / interval) 0
    inserter := 0
    last_event_counter := raw0 }

/-- The loop state after `k` completed ticks, given the trace `raw` of
counter reads (`raw 0` the pre-loop read, `raw (t+1)` the read of tick
`t+1`). -/
def runTicks (interval : Nat) (raw : Nat → Nat) : Nat → LoopState
  | 0 => initState interval (raw 0)
  | k + 1 => tickStep (runTicks interval raw k) (raw (k + 1))

/-- The `events` value computed (and stored at position `t % bucket_count`)
during tick `t + 1`. -/
def eventsAt (interval : Nat) (raw : Nat → Nat) (t : Nat) : Nat :=
  tickDelta (runTicks interval raw t).last_event_counter (raw (t + 1))

/-- The rate computation of `count_rain`:
`events_per_hour * options.sqcm * options.milliliter / 1000`, all operands
converted to `unsigned long`, hence products reduced mod `2 ^ 64` and the
division an integer (truncating) division.  The result is then converted to
`double` (exactly, for the magnitudes involved). -/
def mm_per_hour (events_per_hour sqcm milliliter : Nat) : Nat :=
  events_per_hour * sqcm % U64 * milliliter % U64 / 1000

/-- `std::setprecision(2) << std::fixed` applied to the (integral) `double`
value `mm_per_hour` holds: the integer followed by `.00`. -/
def formatFixed2 (n : Nat) : String := toString n ++ ".00"

/-- The console line of `count_rain`: the formatted value followed by the
literal `" mm/m2"` suffix. -/
def consoleFormat (n : Nat) : String := formatFixed2 n ++ " mm/m2"

/-- The externally visible effects of the output phase of one tick. -/
structure TickEffects where
  fileWrite : Option String
  consoleWrite : Option String
  stderrWrite : Option String
  exitCode : Option Nat
deriving DecidableEq

/-- The output phase of one tick of `count_rain`: if a filename is
configured, open it for writing in truncate mode; on failure print
`Cannot open file <name>` to `stderr` and `exit(1)`; otherwise write the
formatted rate.  Afterwards (only if not exited) print the console line when
`print_to_console` is set.  Whether the open succeeds is external state,
passed as `fileOpens`. -/
def dispatchTick (options : option_t) (fileOpens : Bool) (rate : Nat) : TickEffects :=
  if options.filename ≠ "" then
    if fileOpens then
      { fileWrite := some (formatFixed2 rate)
        consoleWrite := if options.print_to_console then some (consoleFormat rate) else none
        stderrWrite := none
        exitCode := none }
    else
      { fileWrite := none
        consoleWrite := none
        stderrWrite := some ("Cannot open file " ++ options.filename)
        exitCode := some 1 }
  else
    { fileWrite := none
      consoleWrite := if options.print_to_console then some (consoleFormat rate) else none
      stderrWrite := none
      exitCode := none }

/-- Outcome of `main`'s option-parsing block: print usage and `exit(0)`
(the `default:`/`case 'h':` path), print a diagnostic to `stderr` and
`exit(1)` (an out-of-range value), or fall through to `count_rain` with the
final options. -/
inductive ParseResult where
  | helpExit
  | errorExit (msg : String)
  | ok (options : option_t)
deriving DecidableEq

/-- The exit taken before `count_rain` is ever entered: `some code`, or
`none` when parsing falls through into the main loop. -/
def exitBeforeLoop : ParseResult → Option Nat
  | .helpExit => some 0
  | .errorExit _ => some 1
  | .ok _ => none

/-- C `atoi` digit loop: consume leading decimal digits, stop at the first
non-digit. -/
def atoiDigits : List Char → Nat → Nat
  | [], acc => acc
  | c :: cs, acc => if c.isDigit then atoiDigits cs (10 * acc + (c.toNat - 48)) else acc

/-- C `isspace` characters skipped by `atoi`. -/
def isSpaceChar (c : Char) : Bool :=
  c = ' ' || c = '\t' || c = '\n' || c = '\x0b' || c = '\x0c' || c = '\r'

/-- C `atoi`: skip whitespace, optional sign, then leading digits
(`0` when there are none). -/
def atoi (s : String) : Int :=
  match s.toList.dropWhile isSpaceChar with
  | '-' :: cs => -(atoiDigits cs 0 : Int)
  | '+' :: cs => (atoiDigits cs 0 : Int)
  | cs => (atoiDigits cs 0 : Int)

/-- One `switch (opt)` dispatch of `main` for an option character that takes
an argument in the optstring `"b:c:f:hi:p:s:"` (every character except `h`
does — including `p`).  Returns the terminal exit or the updated options.
Range checks and messages are verbatim from the source. -/
def applyOpt (options : option_t) (c : Char) (optarg : String) : ParseResult ⊕ option_t :=
  if c = 'b' then
    let v := atoi optarg
    if v < 1 ∨ v > 1000 then
      Sum.inl (ParseResult.errorExit ("invalid value for milliliter (1..1000): " ++ toString v))
    else Sum.inr { options with milliliter := v }
  else if c = 'c' then
    let v := atoi optarg
    if v < 0 ∨ v > 63 then
      Sum.inl (ParseResult.errorExit ("invalid value for gpio (0..63): " ++ toString v))
    else Sum.inr { options with gpio_pin := v }
  else if c = 'f' then
    Sum.inr { options with filename := optarg }
  else if c = 'i' then
    let v := atoi optarg
    if v < 1 ∨ v > 60 then
      Sum.inl (ParseResult.errorExit ("invalid value for interval (1..60): " ++ toString v))
    else Sum.inr { options with interval := v }
  else if c = 'p' then
    Sum.inr { options with print_to_console := true }
  else if c = 's' then
    let v := atoi optarg
    if v < 1 ∨ v > 10000 then
      Sum.inl (ParseResult.errorExit ("invalid value for square centimeters (1..10000): " ++ toString v))
    else Sum.inr { options with sqcm := v }
  else
    Sum.inl ParseResult.helpExit

/-- Does `getopt` treat this `argv` element as an option token?  It must
start with `-`, be at least two characters, and not be the `--` terminator
(both `-` alone and the first non-option stop the scan). -/
def isOptToken (s : String) : Bool :=
  match s.toList with
  | '-' :: _ :: _ => s != "--"
  | _ => false

/-- `main`'s `while ((opt = getopt(argc, argv, "b:c:f:hi:p:s:")) != -1)`
loop over the `argv` tail (POSIX scanning order: the scan stops at the
first non-option).  In this optstring every option character except `h`
declares an argument, so within a token only the first option character is
ever examined: `h`, an unknown character, and a missing required argument
(`getopt` returns `?`) all reach the combined `default:`/`case 'h':` branch,
which prints usage and calls `exit(0)`. -/
def parseArgs (options : option_t) : List String → ParseResult
  | [] => ParseResult.ok options
  | arg :: rest =>
    if isOptToken arg then
      match arg.toList.drop 1 with
      | [] => ParseResult.ok options
      | c :: cs =>
        if c = 'h' then ParseResult.helpExit
        else if c = 'b' ∨ c = 'c' ∨ c = 'f' ∨ c = 'i' ∨ c = 'p' ∨ c = 's' then
          match cs with
          | _ :: _ =>
            match applyOpt options c (String.mk cs) with
            | Sum.inl r => r
            | Sum.inr options2 => parseArgs options2 rest
          | [] =>
            match rest with
            | [] => ParseResult.helpExit
            | v :: rest2 =>
              match applyOpt options c v with
              | Sum.inl r => r
              | Sum.inr options2 => parseArgs options2 rest2
        else ParseResult.helpExit
    else ParseResult.ok options

/-! ### Helper lemmas about the loop embedding -/

theorem usub_eq_of_le (a b : Nat) (ha : a < U64) (hb : b ≤ a) : usub a b = a - b := by
  have hU : (0:Nat) < U64 := by simp [U64]
  have hbU : b ≤ U64 := le_trans hb (le_of_lt ha)
  have h1 : a + (U64 - b) = (a - b) + U64 := by omega
  rw [usub, h1, Nat.add_mod_right, Nat.mod_eq_of_lt (by omega)]

theorem runTicks_last (interval : Nat) (raw : Nat → Nat) (k : Nat) :
    (runTicks interval raw k).last_event_counter = raw k := by
  cases k <;> rfl

theorem runTicks_length (interval : Nat) (raw : Nat → Nat) (k : Nat) :
    (runTicks interval raw k).buckets.length = 60 / interval := by
  induction k with
  | zero => simp [runTicks, initState]
  | succ k ih => simp [runTicks, tickStep, ih]

theorem runTicks_inserter (interval : Nat) (raw : Nat → Nat) (hn : 0 < 60 / interval)
    (k : Nat) : (runTicks interval raw k).inserter = k % (60 / interval) := by
  induction k with
  | zero => simp [runTicks, initState]
  | succ k ih =>
    have hlen := runTicks_length interval raw k
    simp only [runTicks, tickStep, List.length_set, hlen, ih]
    have h1 : k % (60 / interval) < 60 / interval := Nat.mod_lt _ hn
    have h2 : (k + 1) % (60 / interval) = (k % (60 / interval) + 1) % (60 / interval) := by
      conv_lhs => rw [← Nat.mod_add_mod]
    rw [h2]
    by_cases h : k % (60 / interval) + 1 = 60 / interval
    · simp [h]
    · rw [if_neg h]
      exact (Nat.mod_eq_of_lt (by omega)).symm

theorem runTicks_get_recent (interval : Nat) (raw : Nat → Nat) (hn : 0 < 60 / interval)
    (k t : Nat) : t < k → k ≤ t + 60 / interval →
    (runTicks interval raw k).buckets[t % (60 / interval)]? = some (eventsAt interval raw t) := by
  induction k with
  | zero => intro ht _; omega
  | succ k ih =>
    intro ht hwin
    simp only [runTicks, tickStep]
    rw [runTicks_inserter interval raw hn k]
    by_cases hte : t = k
    · subst hte
      have hidx : t % (60 / interval) < (runTicks interval raw t).buckets.length := by
        rw [runTicks_length]; exact Nat.mod_lt _ hn
      rw [List.getElem?_set_eq_of_lt _ hidx]
      rfl
    · have htk : t < k := by omega
      have hne : k % (60 / interval) ≠ t % (60 / interval) := by
        intro he
        have hmeq : Nat.ModEq (60 / interval) t k := he.symm
        have hd : (60 / interval) ∣ (k - t) := (Nat.modEq_iff_dvd' (le_of_lt htk)).mp hmeq
        have := Nat.le_of_dvd (by omega) hd
        omega
      rw [List.getElem?_set_ne hne]
      exact ih htk (by omega)

theorem runTicks_get_zero (interval : Nat) (raw : Nat → Nat) (hn : 0 < 60 / interval)
    (k i : Nat) : k ≤ i → i < 60 / interval →
    (runTicks interval raw k).buckets[i]? = some 0 := by
  induction k with
  | zero =>
    intro _ hi
    simp [runTicks, initState, List.getElem?_replicate, hi]
  | succ k ih =>
    intro hk hi
    simp only [runTicks, tickStep]
    rw [runTicks_inserter interval raw hn k]
    have hkn : k % (60 / interval) = k := Nat.mod_eq_of_lt (by omega)
    rw [hkn, List.getElem?_set_ne (by omega)]
    exact ih (by omega) hi

theorem sum_set_add (l : List Nat) (i : Nat) (v w : Nat) (h : l[i]? = some w) :
    (l.set i v).sum + w = l.sum + v := by
  induction l generalizing i with
  | nil => simp at h
  | cons a l ih =>
    cases i with
    | zero =>
      simp only [List.getElem?_cons_zero, Option.some.injEq] at h
      simp [List.set, h]
      omega
    | succ i =>
      simp only [List.getElem?_cons_succ] at h
      have := ih i h
      simp [List.set, List.sum_cons]
      omega

theorem tickDelta_run (interval : Nat) (raw : Nat → Nat)
    (Hmono : ∀ j, raw j ≤ raw (j + 1)) (Hbound : ∀ j, raw j < U64) (t : Nat) :
    tickDelta (runTicks interval raw t).last_event_counter (raw (t + 1)) =
      raw (t + 1) - raw t := by
  rw [tickDelta, runTicks_last]
  rw [if_neg (by have := Hmono t; omega)]
  exact usub_eq_of_le _ _ (Hbound (t + 1)) (Hmono t)

theorem eventsAt_eq_sub (interval : Nat) (raw : Nat → Nat)
    (Hmono : ∀ j, raw j ≤ raw (j + 1)) (Hbound : ∀ j, raw j < U64) (t : Nat) :
    eventsAt interval raw t = raw (t + 1) - raw t :=
  tickDelta_run interval raw Hmono Hbound t

theorem runTicks_sum (interval : Nat) (raw : Nat → Nat) (hn : 0 < 60 / interval)
    (Hmono : ∀ j, raw j ≤ raw (j + 1)) (Hbound : ∀ j, raw j < U64) (k : Nat) :
    (runTicks interval raw k).buckets.sum = raw k - raw (k - 60 / interval) := by
  have hmono2 : ∀ i j, i ≤ j → raw i ≤ raw j := fun i j hij =>
    monotone_nat_of_le_succ Hmono hij
  induction k with
  | zero => simp [runTicks, initState]
  | succ k ih =>
    simp only [runTicks, tickStep]
    rw [runTicks_inserter interval raw hn k, tickDelta_run interval raw Hmono Hbound k]
    by_cases hfull : 60 / interval ≤ k
    · have hmod : (k - 60 / interval) % (60 / interval) = k % (60 / interval) := by
        conv_rhs => rw [← Nat.sub_add_cancel hfull]
        rw [Nat.add_mod_right]
      have hold := runTicks_get_recent interval raw hn k (k - 60 / interval)
        (by omega) (by omega)
      rw [hmod] at hold
      have hset := sum_set_add (runTicks interval raw k).buckets (k % (60 / interval))
        (raw (k + 1) - raw k)
        (eventsAt interval raw (k - 60 / interval)) hold
      rw [eventsAt_eq_sub interval raw Hmono Hbound, ih] at hset
      have e1 : raw (k - 60 / interval) ≤ raw (k - 60 / interval + 1) := Hmono _
      have e2 : raw (k - 60 / interval + 1) ≤ raw k := hmono2 _ _ (by omega)
      have e3 : raw k ≤ raw (k + 1) := Hmono k
      have e4 : k + 1 - 60 / interval = k - 60 / interval + 1 := by omega
      rw [e4]
      omega
    · have hk : k < 60 / interval := by omega
      have hkn : k % (60 / interval) = k := Nat.mod_eq_of_lt hk
      have hold : (runTicks interval raw k).buckets[k % (60 / interval)]? = some 0 := by
        rw [hkn]
        exact runTicks_get_zero interval raw hn k k (le_refl k) hk
      have hset := sum_set_add (runTicks interval raw k).buckets (k % (60 / interval))
        (raw (k + 1) - raw k) 0 hold
      rw [ih] at hset
      have e1 : raw 0 ≤ raw k := hmono2 0 k (by omega)
      have e3 : raw k ≤ raw (k + 1) := Hmono k
      have e4 : k - 60 / interval = 0 := by omega
      have e5 : k + 1 - 60 / interval = 0 := by omega
      rw [e4] at hset
      rw [e5]
      omega

/-! ### Claim theorems -/

/-- C1: the spec claims the computed rate equals `6.35` (formatted
`"6.35"`) at `events_per_hour = 10`, `sqcm = 127`, `milliliter = 5`, and
`7.62` (printed `"7.62 mm/m2"`) at `events_per_hour = 12`.  The code
computes `events_per_hour * sqcm * milliliter / 1000` entirely in
`unsigned long` arithmetic, so `6350 / 1000` truncates to `6` and
`7620 / 1000` to `7` before the conversion to `double`; the ticks emit
`"6.00"` and `"7.00 mm/m2"`, never the claimed decimals. -/
theorem rate_formula_c1 :
    mm_per_hour 10 127 5 = 6 ∧
    formatFixed2 (mm_per_hour 10 127 5) = "6.00" ∧
    formatFixed2 (mm_per_hour 10 127 5) ≠ "6.35" ∧
    100 * mm_per_hour 10 127 5 ≠ 635 ∧
    mm_per_hour 12 127 5 = 7 ∧
    consoleFormat (mm_per_hour 12 127 5) = "7.00 mm/m2" ∧
    consoleFormat (mm_per_hour 12 127 5) ≠ "7.62 mm/m2" ∧
    100 * mm_per_hour 12 127 5 ≠ 762 := by
  refine ⟨by decide, by decide, by decide, by decide, by decide, by decide, by decide, by decide⟩

/-- C2: the claim (and the program's own help text) says `-p` is a flag
taking no argument.  The optstring is `"b:c:f:hi:p:s:"`, so `getopt`
requires an argument for `-p`: a bare `-p` makes `getopt` fail, reaching
the combined `default:`/`case 'h':` branch — usage is printed and the
process exits 0 with console output never enabled; and when `-p` is
followed by further options, the next `argv` element is consumed as its
argument, so `-p -i 70` leaves the interval at its default and never even
validates the out-of-range 70. -/
theorem p_option_c2 :
    parseArgs {} ["-p"] = ParseResult.helpExit ∧
    exitBeforeLoop (parseArgs {} ["-p"]) = some 0 ∧
    parseArgs {} ["-p", "-i", "70"] = ParseResult.ok { print_to_console := true } := by
  refine ⟨by decide, by decide, by decide⟩

/-- C3: on a tick whose new raw read is strictly below the stored baseline,
the overflow guard resets the baseline to 0 and the computed events value
equals the new read itself — not an underflowed value and not a
wraparound-corrected count. -/
theorem overflow_reset_c3 (interval : Nat) (raw : Nat → Nat) (t : Nat)
    (hb : raw (t + 1) < U64) (hlt : raw (t + 1) < raw t) :
    eventsAt interval raw t = raw (t + 1) := by
  unfold eventsAt tickDelta usub
  rw [runTicks_last, if_pos hlt, Nat.sub_zero, Nat.add_mod_right]
  exact Nat.mod_eq_of_lt hb

/-- C3 witness: a trace that drops from 10 to 3 across the first tick. -/
theorem overflow_reset_c3_witness :
    eventsAt 5 (fun j => if j = 0 then 10 else 3) 0 = 3 :=
  overflow_reset_c3 5 (fun j => if j = 0 then 10 else 3) 0 (by decide) (by decide)

/-- C4: after `k` completed ticks the write iterator stands at index
`k % bucket_count`; each of the most recent `min k bucket_count` ticks'
delta values sits at its non-rotated-out position `t % bucket_count`; and
every position not yet written still holds its zero initialization. -/
theorem circular_buffer_c4 (interval : Nat) (raw : Nat → Nat) (k : Nat)
    (h1 : 1 ≤ interval) (h2 : interval ≤ 60) :
    (runTicks interval raw k).inserter = k % (60 / interval) ∧
    (∀ t, t < k → k ≤ t + 60 / interval →
      (runTicks interval raw k).buckets[t % (60 / interval)]? =
        some (eventsAt interval raw t)) ∧
    (∀ i, k ≤ i → i < 60 / interval →
      (runTicks interval raw k).buckets[i]? = some 0) := by
  have hn : 0 < 60 / interval := Nat.div_pos h2 (by omega)
  exact ⟨runTicks_inserter interval raw hn k,
    fun t ht hw => runTicks_get_recent interval raw hn k t ht hw,
    fun i hi hi2 => runTicks_get_zero interval raw hn k i hi hi2⟩

/-- C4 witness: interval 5 (12 buckets) after 3 ticks of the trace
`raw j = 3 * j`. -/
theorem circular_buffer_c4_witness :
    (runTicks 5 (fun j => 3 * j) 3).inserter = 3 % (60 / 5) ∧
    (∀ t, t < 3 → 3 ≤ t + 60 / 5 →
      (runTicks 5 (fun j => 3 * j) 3).buckets[t % (60 / 5)]? =
        some (eventsAt 5 (fun j => 3 * j) t)) ∧
    (∀ i, 3 ≤ i → i < 60 / 5 →
      (runTicks 5 (fun j => 3 * j) 3).buckets[i]? = some 0) :=
  circular_buffer_c4 5 (fun j => 3 * j) 3 (by decide) (by decide)

/-- C5: with a monotone (overflow-free) bounded counter trace, once the
buffer has been filled (`bucket_count ≤ k`) the bucket sum equals the
pulses of the trailing window — the current raw count minus the raw count
at the window start; during warm-up (`k ≤ bucket_count`) it equals only the
pulses observed since startup (`raw k - raw 0`), the unfilled entries still
being zero, so pulses from before startup are understated. -/
theorem window_sum_c5 (interval : Nat) (raw : Nat → Nat) (k : Nat)
    (h1 : 1 ≤ interval) (h2 : interval ≤ 60)
    (Hmono : ∀ j, raw j ≤ raw (j + 1)) (Hbound : ∀ j, raw j < U64) :
    (60 / interval ≤ k →
      (runTicks interval raw k).buckets.sum = raw k - raw (k - 60 / interval)) ∧
    (k ≤ 60 / interval →
      (runTicks interval raw k).buckets.sum = raw k - raw 0) ∧
    (∀ i, k ≤ i → i < 60 / interval →
      (runTicks interval raw k).buckets[i]? = some 0) := by
  have hn : 0 < 60 / interval := Nat.div_pos h2 (by omega)
  refine ⟨fun _ => runTicks_sum interval raw hn Hmono Hbound k, fun hk => ?_,
    fun i hi hi2 => runTicks_get_zero interval raw hn k i hi hi2⟩
  have hs := runTicks_sum interval raw hn Hmono Hbound k
  rwa [Nat.sub_eq_zero_of_le hk] at hs

/-- C5 witness: interval 6 (10 buckets), trace `min j 20`, 12 ticks: the
window holds `raw 12 - raw 2 = 10` pulses. -/
theorem window_sum_c5_witness :
    (60 / 6 ≤ 12 → (runTicks 6 (fun j => min j 20) 12).buckets.sum = 10) ∧
    (12 ≤ 60 / 6 → (runTicks 6 (fun j => min j 20) 12).buckets.sum = 12) ∧
    (∀ i, 12 ≤ i → i < 60 / 6 →
      (runTicks 6 (fun j => min j 20) 12).buckets[i]? = some 0) :=
  window_sum_c5 6 (fun j => min j 20) 12 (by decide) (by decide)
    (fun j => by show min j 20 ≤ min (j + 1) 20; omega)
    (fun j => lt_of_le_of_lt (min_le_right j 20) (by decide))

/-- C6: `buckets.resize(60 / options.interval)` allocates exactly
`60 / interval` buckets (integer division) for every configured interval in
1..60; the count never changes while the loop runs and coincides between
any two runs configured with the same interval. -/
theorem bucket_count_c6 (interval : Nat) (raw raw2 : Nat → Nat) (k k2 : Nat)
    (h1 : 1 ≤ interval) (h2 : interval ≤ 60) :
    (initState interval (raw 0)).buckets.length = 60 / interval ∧
    (runTicks interval raw k).buckets.length = 60 / interval ∧
    (runTicks interval raw k).buckets.length = (runTicks interval raw2 k2).buckets.length := by
  refine ⟨by simp [initState], runTicks_length interval raw k, ?_⟩
  rw [runTicks_length, runTicks_length]

/-- C6 witness: interval 7 allocates `60 / 7 = 8` buckets in two different
runs. -/
theorem bucket_count_c6_witness :
    (initState 7 0).buckets.length = 60 / 7 ∧
    (runTicks 7 (fun _ => 0) 4).buckets.length = 60 / 7 ∧
    (runTicks 7 (fun _ => 0) 4).buckets.length =
      (runTicks 7 (fun _ => 5) 9).buckets.length :=
  bucket_count_c6 7 (fun _ => 0) (fun _ => 5) 4 9 (by decide) (by decide)

/-- C7: with an output file configured, a tick whose open (truncate mode)
fails reports `Cannot open file <name>` on stderr and exits with status 1:
no value reaches the file and the console line is not printed even when
console output is enabled. -/
theorem file_error_exit_c7 (options : option_t) (rate : Nat)
    (hf : options.filename ≠ "") :
    dispatchTick options false rate =
      { fileWrite := none, consoleWrite := none,
        stderrWrite := some ("Cannot open file " ++ options.filename),
        exitCode := some 1 } := by
  unfold dispatchTick
  rw [if_pos hf]
  rfl

/-- C7 witness: console output enabled, file `rain.txt` configured, open
fails at rate 6. -/
theorem file_error_exit_c7_witness :
    dispatchTick { filename := "rain.txt", print_to_console := true } false 6 =
      { fileWrite := none, consoleWrite := none,
        stderrWrite := some "Cannot open file rain.txt",
        exitCode := some 1 } :=
  file_error_exit_c7 { filename := "rain.txt", print_to_console := true } 6 (by decide)

/-- C8: any `-i` value outside 1..60 makes the option loop print
`invalid value for interval (1..60): <value>` (the offending value
included) to stderr and exit with status 1 before `count_rain` is ever
entered. -/
theorem invalid_interval_c8 (s : String) (h : atoi s < 1 ∨ atoi s > 60) :
    parseArgs {} ["-i", s] =
      ParseResult.errorExit ("invalid value for interval (1..60): " ++ toString (atoi s)) ∧
    exitBeforeLoop (parseArgs {} ["-i", s]) = some 1 := by
  have happ : applyOpt {} 'i' s =
      Sum.inl (ParseResult.errorExit
        ("invalid value for interval (1..60): " ++ toString (atoi s))) := by
    have h0 : applyOpt {} 'i' s =
        (if atoi s < 1 ∨ atoi s > 60 then
          Sum.inl (ParseResult.errorExit
            ("invalid value for interval (1..60): " ++ toString (atoi s)))
        else Sum.inr { interval := atoi s }) := rfl
    rw [h0, if_pos h]
  have hred : parseArgs {} ["-i", s] =
      (match applyOpt {} 'i' s with
       | Sum.inl r => r
       | Sum.inr options2 => parseArgs options2 []) := rfl
  rw [happ] at hred
  exact ⟨hred, by rw [hred]; rfl⟩

/-- C8 witness: `-i 61` exits with status 1 and a message naming 61. -/
theorem invalid_interval_c8_witness :
    parseArgs {} ["-i", "61"] =
      ParseResult.errorExit "invalid value for interval (1..60): 61" ∧
    exitBeforeLoop (parseArgs {} ["-i", "61"]) = some 1 :=
  invalid_interval_c8 "61" (by decide)

/-- C9: after the overflow guard the baseline is at most the new read, so
the unsigned subtraction never underflows: the computed events value is the
exact difference and is at most the current raw count — never a
wrapped-around huge value. -/
theorem no_underflow_c9 (last_event_counter new_event_counter : Nat)
    (hl : last_event_counter < U64) (hn : new_event_counter < U64) :
    (if new_event_counter < last_event_counter then 0 else last_event_counter) ≤
      new_event_counter ∧
    tickDelta last_event_counter new_event_counter =
      new_event_counter -
        (if new_event_counter < last_event_counter then 0 else last_event_counter) ∧
    tickDelta last_event_counter new_event_counter ≤ new_event_counter := by
  have hbase : (if new_event_counter < last_event_counter then 0 else last_event_counter) ≤
      new_event_counter := by
    by_cases h : new_event_counter < last_event_counter
    · simp [h]
    · simp only [if_neg h]
      omega
  have heq : tickDelta last_event_counter new_event_counter =
      new_event_counter -
        (if new_event_counter < last_event_counter then 0 else last_event_counter) := by
    unfold tickDelta
    exact usub_eq_of_le _ _ hn hbase
  exact ⟨hbase, heq, by rw [heq]; omega⟩

/-- C9 witness: a wrapped read 4 after baseline 9 yields 4, not a huge
unsigned value. -/
theorem no_underflow_c9_witness :
    (if (4 : Nat) < 9 then 0 else 9) ≤ 4 ∧
    tickDelta 9 4 = 4 - (if (4 : Nat) < 9 then 0 else 9) ∧
    tickDelta 9 4 ≤ 4 :=
  no_underflow_c9 9 4 (by decide) (by decide)

/-- C10: `last_event_counter` is initialized from the counter read taken
after `counter.start()` and before the first sleep, so the loop enters with
baseline `raw 0` and the first tick computes `raw 1 - raw 0` — only pulses
observed after startup, not the counter's absolute value. -/
theorem baseline_init_c10 (interval : Nat) (raw : Nat → Nat)
    (hb : raw 1 < U64) (hm : raw 0 ≤ raw 1) :
    (initState interval (raw 0)).last_event_counter = raw 0 ∧
    eventsAt interval raw 0 = raw 1 - raw 0 := by
  constructor
  · rfl
  · unfold eventsAt tickDelta
    rw [show (0 : Nat) + 1 = 1 from rfl, runTicks_last, if_neg (Nat.not_lt.mpr hm)]
    exact usub_eq_of_le _ _ hb hm

/-- C10 witness: the counter already stands at 4 when the loop starts and
reads 9 after the first interval: the first tick counts 5 events, not 9. -/
theorem baseline_init_c10_witness :
    (initState 5 ((fun j => if j = 0 then 4 else 9) 0)).last_event_counter = 4 ∧
    eventsAt 5 (fun j => if j = 0 then 4 else 9) 0 = 5 :=
  baseline_init_c10 5 (fun j => if j = 0 then 4 else 9) (by decide) (by decide)

end Rainsensor
